import Mathlib

/-!
Verification of the sensor observation normalization and derivation pipeline
of the dashboard-edificio repository (descarga_multisensor.py,
descarga_multisensor2.py, descarga_header.py).

Strings are modelled as `List Char`.  Python floats are modelled by `PyNum`
(an exact rational plus the non-finite values `inf`, `-inf`, `nan`); finite
arithmetic is exact (no rounding to 53-bit precision, which is faithful for
every finite value appearing in the theorems below) except that, as in
IEEE-754 doubles, a result whose magnitude reaches the round-to-nearest
overflow boundary becomes ±infinity.  Raw observation payloads are modelled post-JSON-parsing:
a payload is either the empty string, a string `json.loads` rejects, or a
parsed JSON value (`JVal`).  Case mapping and accent stripping are modelled
on the ASCII/Latin-1 letters that occur in this domain.
-/

/-- Python whitespace characters relevant to `str.strip()` / `str.upper()`. -/
def isWS (c : Char) : Bool :=
  c = ' ' || c = '\t' || c = '\n' || c = '\x0d' || c = '\x0b' || c = '\x0c'

/-- Models Python `str.upper()` on one character (ASCII range). -/
def pyUpperChar (c : Char) : Char := c.toUpper

/-- Models Python `str.lower()` on one character (ASCII plus the Latin-1
uppercase accented letters used in sensor descriptions). -/
def pyLowerChar (c : Char) : Char :=
  if c = 'Á' then 'á' else if c = 'À' then 'à' else
  if c = 'É' then 'é' else if c = 'È' then 'è' else
  if c = 'Í' then 'í' else if c = 'Ì' then 'ì' else
  if c = 'Ó' then 'ó' else if c = 'Ò' then 'ò' else
  if c = 'Ú' then 'ú' else if c = 'Ù' then 'ù' else
  if c = 'Ñ' then 'ñ' else if c = 'Ç' then 'ç' else if c = 'Ü' then 'ü' else
  c.toLower

/-- Models NFD decomposition followed by dropping combining marks (category
`Mn`) on one lower-cased character: accented Latin letters decompose into
their base letter plus a combining mark, which is then dropped. -/
def nfdStripChar (c : Char) : List Char :=
  if c = 'á' || c = 'à' || c = 'â' || c = 'ä' then ['a'] else
  if c = 'é' || c = 'è' || c = 'ê' || c = 'ë' then ['e'] else
  if c = 'í' || c = 'ì' || c = 'î' || c = 'ï' then ['i'] else
  if c = 'ó' || c = 'ò' || c = 'ô' || c = 'ö' then ['o'] else
  if c = 'ú' || c = 'ù' || c = 'û' || c = 'ü' then ['u'] else
  if c = 'ñ' then ['n'] else if c = 'ç' then ['c'] else
  [c]

/-- Models Python `str.upper()`. -/
def pyUpper (s : List Char) : List Char := s.map pyUpperChar

/-- Models Python `str.lower()`. -/
def pyLower (s : List Char) : List Char := s.map pyLowerChar

/-- Models Python `str.strip()` (default whitespace stripping at both ends). -/
def pyStrip (s : List Char) : List Char :=
  (((s.dropWhile isWS).reverse.dropWhile isWS)).reverse

/-- `normalizar` from descarga_multisensor.py / descarga_multisensor2.py:
lower-case, NFD-decompose, drop combining marks. -/
def normalizar (texto : List Char) : List Char :=
  (pyLower texto).flatMap nfdStripChar

/-- `normalizar` from descarga_header.py: lower-case, strip, NFD-decompose,
drop combining marks. -/
def normalizar_h (txt : List Char) : List Char :=
  (pyStrip (pyLower txt)).flatMap nfdStripChar

/-- Python `needle in haystack` substring test. -/
def containsSub (hay needle : List Char) : Bool :=
  match hay with
  | [] => needle.isEmpty
  | _ :: t => needle.isPrefixOf hay || containsSub t needle

/-- `es_energia` from descarga_multisensor.py. -/
def es_energia_m (sensor_id descripcion : List Char) : Bool :=
  let sid := pyUpper (pyStrip sensor_id)
  let desc := normalizar descripcion
  if ("0190_MV_".toList).isPrefixOf sid then true
  else if sid = "0524_MV_FVENERGIA".toList then true
  else if containsSub desc "energia".toList || containsSub desc "energy".toList then true
  else false

/-- `es_energia` from descarga_multisensor2.py. -/
def es_energia_m2 (sensor_id descripcion : List Char) : Bool :=
  let sid := pyUpper (pyStrip sensor_id)
  let desc := normalizar descripcion
  if ("0190_MV_".toList).isPrefixOf sid then true
  else if containsSub desc "energia".toList || containsSub desc "energy".toList then true
  else if containsSub sid "_MV_".toList && containsSub sid "FVENERGIA".toList then true
  else false

/-- `es_energia` from descarga_header.py (note: no "energy" token, no
FVENERGIA rule, and its `normalizar` also strips). -/
def es_energia_h (sensor_id descripcion : List Char) : Bool :=
  let sid := pyUpper sensor_id
  let desc := normalizar_h descripcion
  ("0190_MV_".toList).isPrefixOf sid || containsSub desc "energia".toList

/-- An exact rational as numerator/denominator, kept unnormalized so that
all arithmetic is kernel-computable (denominators are positive by
construction everywhere below); the denoted value is `num / den`. -/
structure Frac where
  num : Int
  den : Nat
  deriving DecidableEq, Repr

/-- The rational value denoted by a `Frac`. -/
def Frac.val (a : Frac) : ℚ := (a.num : ℚ) / (a.den : ℚ)

/-- Exact sum. -/
def Frac.add (a b : Frac) : Frac := ⟨a.num * b.den + b.num * a.den, a.den * b.den⟩

/-- Exact difference. -/
def Frac.sub (a b : Frac) : Frac := ⟨a.num * b.den - b.num * a.den, a.den * b.den⟩

/-- Exact negation. -/
def Frac.neg (a : Frac) : Frac := ⟨-a.num, a.den⟩

/-- Embedding of an integer. -/
def Frac.ofInt (n : Int) : Frac := ⟨n, 1⟩

/-- The smallest magnitude at which an exact double result rounds to
infinity under round-to-nearest-even: the midpoint 2^1024 − 2^970 between
DBL_MAX and 2^1024. -/
def ovfBound : Int := 179769313486231580793728971405303415079934132710037826936173778980444968292764750946649017977587207096330286416692887910946555547851940402630657488671505820681908902000708383676273854845817711531764475730270069855571366959622842914819860834936475292719074168444365510704342711559699508093042880177904174497792

/-- The largest finite IEEE double, DBL_MAX = 2^1024 − 2^971
(1.7976931348623157e308). -/
def dblMax : Frac := ⟨179769313486231570814527423731704356798070567525844996598917476803157260780028538760589558632766878171540458953514382464234321326889464182768467546703537516986049910576551282076245490090389328944075868508455133942304583236903222948165808559332123348274797826204144723168738177180919299881250404026184124858368, 1⟩

lemma ovfBound_eq_pow : ovfBound = (2 : Int) ^ 1024 - 2 ^ 970 := by
  norm_num [ovfBound]

lemma dblMax_eq_pow : dblMax.num = (2 : Int) ^ 1024 - 2 ^ 971 := by
  norm_num [dblMax]

/-- Model of a Python float: exact rational for finite values, plus the
non-finite floats `inf`, `-inf`, `nan`.  Finite values are kept exact
(no rounding to 53-bit precision); arithmetic results overflow to
±infinity at the IEEE boundary (see `clampDouble`). -/
inductive PyNum where
  | finite (q : Frac)
  | pinf
  | ninf
  | nan
  deriving DecidableEq, Repr

/-- Clamp the exact rational result of a double operation to the IEEE
double range: a result whose magnitude reaches `ovfBound` rounds to
±infinity (so e.g. DBL_MAX − (−DBL_MAX) is +infinity, as in Python);
smaller results are kept exact.  `den` is positive by construction
everywhere below. -/
def clampDouble (q : Frac) : PyNum :=
  if ovfBound * (q.den : Int) ≤ q.num then .pinf
  else if q.num ≤ -(ovfBound * (q.den : Int)) then .ninf
  else .finite q

/-- Finiteness of a Python float (not `nan`, not `±inf`). -/
def PyNum.isFinite : PyNum → Bool
  | .finite _ => true
  | _ => false

/-- Python float subtraction `a - b` extended to non-finite values. -/
def pySub : PyNum → PyNum → PyNum
  | .nan, _ => .nan
  | _, .nan => .nan
  | .pinf, .pinf => .nan
  | .ninf, .ninf => .nan
  | .pinf, _ => .pinf
  | .ninf, _ => .ninf
  | .finite _, .pinf => .ninf
  | .finite _, .ninf => .pinf
  | .finite a, .finite b => clampDouble (a.sub b)

/-- Python float addition `a + b` extended to non-finite values. -/
def pyAdd : PyNum → PyNum → PyNum
  | .nan, _ => .nan
  | _, .nan => .nan
  | .pinf, .ninf => .nan
  | .ninf, .pinf => .nan
  | .pinf, _ => .pinf
  | .ninf, _ => .ninf
  | .finite _, .pinf => .pinf
  | .finite _, .ninf => .ninf
  | .finite a, .finite b => clampDouble (a.add b)

/-- A JSON value as produced by Python `json.loads`: numeric literals become
floats/ints (`jnum`; Python json also yields `inf`/`nan` for `Infinity`,
`NaN` and overflowing literals such as `1e999`), strings, objects
(insertion-ordered key/value list, later bindings win), and everything else
(arrays, booleans, `null`). -/
inductive JVal where
  | jnum (p : PyNum)
  | jstr (s : List Char)
  | jdict (fields : List (List Char × JVal))
  | jother

/-- A raw observation payload string as seen by `parse_value`, modelled
post-parsing: empty string, a string `json.loads` raises on, or a parsed
JSON value. -/
inductive RawPayload where
  | emptyStr
  | malformed
  | parsed (j : JVal)

/-- Python `dict.get(k)` on a JSON object built by `json.loads`
(of duplicate keys, the last wins). -/
def dictGet (fields : List (List Char × JVal)) (k : List Char) : Option JVal :=
  (fields.reverse.find? (fun p => p.1 == k)).map (fun p => p.2)

/-- Models Python `float(s)` on a string: optional surrounding whitespace and
sign, then `inf`/`infinity`/`nan` (case-insensitive) or a decimal literal
`digits[.digits]` (exponent forms are not exercised by this repository's
payloads and are omitted); anything else raises, modelled as `none`. -/
def pyFloatDigits (s : List Char) : Option Frac :=
  if s.all Char.isDigit && !s.isEmpty then
    some ⟨(s.foldl (fun a c => a * 10 + (c.toNat - 48)) 0 : ℕ), 1⟩
  else none

/-- Decimal part: `intpart.fracpart` with at least one digit overall. -/
def pyFloatBody (s : List Char) : Option Frac :=
  match s.splitOn '.' with
  | [ip] => pyFloatDigits ip
  | [ip, fp] =>
      if (ip.all Char.isDigit && fp.all Char.isDigit) && !(ip.isEmpty && fp.isEmpty) then
        some ⟨(ip.foldl (fun a c => a * 10 + (c.toNat - 48)) 0 : ℕ) * (10 : ℕ) ^ fp.length
          + (fp.foldl (fun a c => a * 10 + (c.toNat - 48)) 0 : ℕ), (10 : ℕ) ^ fp.length⟩
      else none
  | _ => none

/-- Models Python `float(s)` on a string (see `pyFloatBody`). -/
def pyFloatOfString (s : List Char) : Option PyNum :=
  let t := pyStrip s
  let core := fun (u : List Char) =>
    if pyLower u = "inf".toList || pyLower u = "infinity".toList then some PyNum.pinf
    else if pyLower u = "nan".toList then some PyNum.nan
    else (pyFloatBody u).map PyNum.finite
  match t with
  | '-' :: rest =>
      (core rest).map (fun p =>
        match p with
        | .finite q => .finite q.neg
        | .pinf => .ninf
        | .ninf => .pinf
        | .nan => .nan)
  | '+' :: rest => core rest
  | _ => core t

/-- Models Python `float(x)` on a JSON value: floats pass through, strings
are parsed, anything else raises (`none`). -/
def pyFloat : JVal → Option PyNum
  | .jnum p => some p
  | .jstr s => pyFloatOfString s
  | _ => none

/-- `parse_value` from descarga_multisensor.py.  `none` models the Python
`None` result (any exception inside the body is swallowed and also yields
`None`); the argument is the raw payload string post-JSON-parsing, `none`
standing for a `None` payload (on which `json.loads` raises). -/
def parse_value_m (sensor_id descripcion : List Char) (value_raw : Option RawPayload) :
    Option PyNum :=
  match value_raw with
  | some (.parsed (.jdict fields)) =>
    match (dictGet fields "summary".toList).getD (.jdict []) with
    | .jdict s =>
      if es_energia_m sensor_id descripcion then
        match dictGet s "firstvalue".toList, dictGet s "lastvalue".toList with
        | some jf, some jl =>
          match pyFloat jl, pyFloat jf with
          | some l, some f => some (pySub l f)
          | _, _ => none
        | _, _ => none
      else
        match dictGet s "avg".toList with
        | some ja => pyFloat ja
        | none => none
    | _ => none
  | _ => none

/-- `parse_value` from descarga_multisensor2.py (identical body to the
multisensor variant, but dispatching on its own `es_energia`). -/
def parse_value_m2 (sensor_id descripcion : List Char) (value_raw : Option RawPayload) :
    Option PyNum :=
  match value_raw with
  | some (.parsed (.jdict fields)) =>
    match (dictGet fields "summary".toList).getD (.jdict []) with
    | .jdict s =>
      if es_energia_m2 sensor_id descripcion then
        match dictGet s "firstvalue".toList, dictGet s "lastvalue".toList with
        | some jf, some jl =>
          match pyFloat jl, pyFloat jf with
          | some l, some f => some (pySub l f)
          | _, _ => none
        | _, _ => none
      else
        match dictGet s "avg".toList with
        | some ja => pyFloat ja
        | none => none
    | _ => none
  | _ => none

/-- `parse_value` from descarga_header.py (if/else instead of early return;
extensionally the same shape, dispatching on the header `es_energia`). -/
def parse_value_h (sensor_id descripcion : List Char) (raw : Option RawPayload) :
    Option PyNum :=
  match raw with
  | some (.parsed (.jdict fields)) =>
    match (dictGet fields "summary".toList).getD (.jdict []) with
    | .jdict s =>
      if es_energia_h sensor_id descripcion then
        match dictGet s "firstvalue".toList, dictGet s "lastvalue".toList with
        | some jf, some jl =>
          match pyFloat jl, pyFloat jf with
          | some l, some f => some (pySub l f)
          | _, _ => none
        | _, _ => none
      else
        match dictGet s "avg".toList with
        | some ja => pyFloat ja
        | none => none
    | _ => none
  | _ => none

/-- Numeric value of a digit character. -/
def digVal (c : Char) : Nat := c.toNat - 48

/-- `%d` field of CPython `_strptime`: regex `3[01]|[12]\d|0[1-9]|[1-9]`,
as the list of (value, remaining input) alternatives in regex order. -/
def dayAlts : List Char → List (Nat × List Char)
  | c1 :: c2 :: rest =>
      (if c1 = '3' ∧ (c2 = '0' ∨ c2 = '1') then [(30 + digVal c2, rest)] else []) ++
      (if (c1 = '1' ∨ c1 = '2') ∧ c2.isDigit then [(10 * digVal c1 + digVal c2, rest)] else []) ++
      (if c1 = '0' ∧ c2.isDigit ∧ c2 ≠ '0' then [(digVal c2, rest)] else []) ++
      (if c1.isDigit ∧ c1 ≠ '0' then [(digVal c1, c2 :: rest)] else [])
  | [c1] => if c1.isDigit ∧ c1 ≠ '0' then [(digVal c1, ([] : List Char))] else []
  | [] => []

/-- `%m` field: regex `1[0-2]|0[1-9]|[1-9]`. -/
def monthAlts : List Char → List (Nat × List Char)
  | c1 :: c2 :: rest =>
      (if c1 = '1' ∧ (c2 = '0' ∨ c2 = '1' ∨ c2 = '2') then [(10 + digVal c2, rest)] else []) ++
      (if c1 = '0' ∧ c2.isDigit ∧ c2 ≠ '0' then [(digVal c2, rest)] else []) ++
      (if c1.isDigit ∧ c1 ≠ '0' then [(digVal c1, c2 :: rest)] else [])
  | [c1] => if c1.isDigit ∧ c1 ≠ '0' then [(digVal c1, ([] : List Char))] else []
  | [] => []

/-- `%Y` field: regex `\d\d\d\d` (exactly four digits). -/
def yearAlts : List Char → List (Nat × List Char)
  | c1 :: c2 :: c3 :: c4 :: rest =>
      if c1.isDigit ∧ c2.isDigit ∧ c3.isDigit ∧ c4.isDigit then
        [(1000 * digVal c1 + 100 * digVal c2 + 10 * digVal c3 + digVal c4, rest)]
      else []
  | _ => []

/-- `%H` field: regex `2[0-3]|[0-1]\d|\d`. -/
def hourAlts : List Char → List (Nat × List Char)
  | c1 :: c2 :: rest =>
      (if c1 = '2' ∧ (c2 = '0' ∨ c2 = '1' ∨ c2 = '2' ∨ c2 = '3') then [(20 + digVal c2, rest)] else []) ++
      (if (c1 = '0' ∨ c1 = '1') ∧ c2.isDigit then [(10 * digVal c1 + digVal c2, rest)] else []) ++
      (if c1.isDigit then [(digVal c1, c2 :: rest)] else [])
  | [c1] => if c1.isDigit then [(digVal c1, ([] : List Char))] else []
  | [] => []

/-- `%M` field: regex `[0-5]\d|\d`. -/
def minuteAlts : List Char → List (Nat × List Char)
  | c1 :: c2 :: rest =>
      (if c1.isDigit ∧ digVal c1 ≤ 5 ∧ c2.isDigit then [(10 * digVal c1 + digVal c2, rest)] else []) ++
      (if c1.isDigit then [(digVal c1, c2 :: rest)] else [])
  | [c1] => if c1.isDigit then [(digVal c1, ([] : List Char))] else []
  | [] => []

/-- `%S` field: regex `6[0-1]|[0-5]\d|\d` (leap seconds allowed by the
regex but rejected later by the `datetime` constructor). -/
def secondAlts : List Char → List (Nat × List Char)
  | c1 :: c2 :: rest =>
      (if c1 = '6' ∧ (c2 = '0' ∨ c2 = '1') then [(60 + digVal c2, rest)] else []) ++
      (if c1.isDigit ∧ digVal c1 ≤ 5 ∧ c2.isDigit then [(10 * digVal c1 + digVal c2, rest)] else []) ++
      (if c1.isDigit then [(digVal c1, c2 :: rest)] else [])
  | [c1] => if c1.isDigit then [(digVal c1, ([] : List Char))] else []
  | [] => []

/-- A naive `datetime` value (no timezone, microsecond always 0 here). -/
structure PyDateTime where
  year : Nat
  month : Nat
  day : Nat
  hour : Nat
  minute : Nat
  second : Nat
  deriving DecidableEq, Repr

/-- Literal character in the format string: must match the next input char. -/
def expectChar (c : Char) : List Char → List (List Char)
  | [] => []
  | x :: rest => if x = c then [rest] else []

/-- All complete parses of the input under the format `%d/%m/%YT%H:%M:%S`
(regex alternation with backtracking; `_strptime` additionally requires the
match to consume the whole string). -/
def strptimeParses (s : List Char) : List PyDateTime :=
  (dayAlts s).flatMap fun dr =>
  (expectChar '/' dr.2).flatMap fun r2 =>
  (monthAlts r2).flatMap fun mr =>
  (expectChar '/' mr.2).flatMap fun r4 =>
  (yearAlts r4).flatMap fun yr =>
  (expectChar 'T' yr.2).flatMap fun r6 =>
  (hourAlts r6).flatMap fun hr =>
  (expectChar ':' hr.2).flatMap fun r8 =>
  (minuteAlts r8).flatMap fun mir =>
  (expectChar ':' mir.2).flatMap fun sr2 =>
  (secondAlts sr2).flatMap fun sr =>
  if sr.2 = ([] : List Char) then [⟨yr.1, mr.1, dr.1, hr.1, mir.1, sr.1⟩] else []

/-- Gregorian leap year. -/
def isLeap (y : Nat) : Bool := (y % 4 == 0 && y % 100 != 0) || y % 400 == 0

/-- Days in a month (month assumed 1..12). -/
def daysInMonth (y m : Nat) : Nat :=
  if m = 2 then (if isLeap y then 29 else 28)
  else if m = 4 ∨ m = 6 ∨ m = 9 ∨ m = 11 then 30 else 31

/-- Range checks performed by the `datetime` constructor (MINYEAR..MAXYEAR,
day valid for the month, second at most 59 — leap seconds are rejected). -/
def validDT (dt : PyDateTime) : Bool :=
  decide (1 ≤ dt.year ∧ dt.year ≤ 9999 ∧ 1 ≤ dt.month ∧ dt.month ≤ 12 ∧
    1 ≤ dt.day ∧ dt.day ≤ daysInMonth dt.year dt.month ∧
    dt.hour ≤ 23 ∧ dt.minute ≤ 59 ∧ dt.second ≤ 59)

/-- `datetime.strptime(s, "%d/%m/%YT%H:%M:%S")`: `none` models a raised
`ValueError` (no match, unconverted data, or out-of-range date). -/
def strptimeDMY (s : List Char) : Option PyDateTime :=
  match strptimeParses s with
  | [] => none
  | dt :: _ => if validDT dt then some dt else none

/-- Two-digit zero-padded decimal rendering. -/
def pad2 (n : Nat) : List Char := [Nat.digitChar (n / 10 % 10), Nat.digitChar (n % 10)]

/-- Four-digit zero-padded decimal rendering. -/
def pad4 (n : Nat) : List Char :=
  [Nat.digitChar (n / 1000 % 10), Nat.digitChar (n / 100 % 10),
   Nat.digitChar (n / 10 % 10), Nat.digitChar (n % 10)]

/-- `datetime.isoformat()` for a second-precision naive datetime:
`YYYY-MM-DDTHH:MM:SS`. -/
def isoformat (dt : PyDateTime) : List Char :=
  pad4 dt.year ++ '-' :: (pad2 dt.month ++ '-' :: (pad2 dt.day ++
    'T' :: (pad2 dt.hour ++ ':' :: (pad2 dt.minute ++ ':' :: pad2 dt.second))))

/-- `parse_timestamp` (identical in all three scripts): convert a source
timestamp `dd/mm/YYYYTHH:MM:SS` to ISO-8601, passing the input through
unchanged when parsing fails. -/
def parse_timestamp (ts : List Char) : List Char :=
  match strptimeDMY ts with
  | some dt => isoformat dt
  | none => ts

/-- `datetime.fromisoformat` on the second-precision shape
`YYYY-MM-DDTHH:MM:SS` (the only shape this pipeline produces); any other
input is modelled as a raised `ValueError` (`none`). -/
def fromisoformat (s : List Char) : Option PyDateTime :=
  match s with
  | [y1, y2, y3, y4, '-', m1, m2, '-', d1, d2, 'T', h1, h2, ':', n1, n2, ':', s1, s2] =>
      if y1.isDigit ∧ y2.isDigit ∧ y3.isDigit ∧ y4.isDigit ∧ m1.isDigit ∧ m2.isDigit ∧
         d1.isDigit ∧ d2.isDigit ∧ h1.isDigit ∧ h2.isDigit ∧ n1.isDigit ∧ n2.isDigit ∧
         s1.isDigit ∧ s2.isDigit then
        let dt : PyDateTime :=
          ⟨1000 * digVal y1 + 100 * digVal y2 + 10 * digVal y3 + digVal y4,
           10 * digVal m1 + digVal m2, 10 * digVal d1 + digVal d2,
           10 * digVal h1 + digVal h2, 10 * digVal n1 + digVal n2, 10 * digVal s1 + digVal s2⟩
        if validDT dt then some dt else none
      else none
  | _ => none

/-- `minute_key` from descarga_multisensor.py: `strftime("%Y-%m-%dT%H:%M")`
on parse success, else the first sixteen characters. -/
def minute_key (iso_ts : List Char) : List Char :=
  match fromisoformat iso_ts with
  | some dt =>
      pad4 dt.year ++ '-' :: (pad2 dt.month ++ '-' :: (pad2 dt.day ++
        'T' :: (pad2 dt.hour ++ ':' :: pad2 dt.minute)))
  | none => iso_ts.take 16

/-- `ts_to_minute_iso` from descarga_multisensor2.py: zero out seconds (and
microseconds) then re-serialize; pass through on parse failure. -/
def ts_to_minute_iso (ts_iso : List Char) : List Char :=
  match fromisoformat ts_iso with
  | some dt => isoformat ⟨dt.year, dt.month, dt.day, dt.hour, dt.minute, 0⟩
  | none => ts_iso

/-- One raw observation as delivered by the fetcher: the `timestamp` and
`value` fields may be absent (`none`); `value` is modelled post-parsing
(see `RawPayload`). -/
structure RawObs where
  timestamp : Option (List Char)
  value : Option RawPayload

/-- Python falsiness of the observation's timestamp field (`not ts`):
absent or the empty string. -/
def tsFalsy : Option (List Char) → Bool
  | none => true
  | some [] => true
  | some (_ :: _) => false

/-- Python falsiness of the observation's raw value field (`not raw`):
absent or the empty string. -/
def payloadFalsy : Option RawPayload → Bool
  | none => true
  | some .emptyStr => true
  | some .malformed => false
  | some (.parsed _) => false

/-- One iteration of the `observations_to_series` loop of
descarga_multisensor2.py: `none` when the observation is skipped
(`continue`), otherwise the appended (label, value) pair. -/
def keptPair_m2 (sensor_id descripcion : List Char) (obs : RawObs) :
    Option (List Char × PyNum) :=
  if tsFalsy obs.timestamp || payloadFalsy obs.value then none
  else
    match obs.timestamp with
    | none => none
    | some ts =>
      match parse_value_m2 sensor_id descripcion obs.value with
      | none => none
      | some v => some (parse_timestamp ts, v)

/-- `observations_to_series` from descarga_multisensor2.py: keep usable
observations in delivery order, then reverse both parallel lists
("vienen DESC -> pasamos a ASC"). -/
def observations_to_series (sensor_id descripcion : List Char)
    (observations : List RawObs) : List (List Char) × List PyNum :=
  let kept := observations.filterMap (keptPair_m2 sensor_id descripcion)
  ((kept.map Prod.fst).reverse, (kept.map Prod.snd).reverse)

/-- One iteration of the `build_sensor_json` loop of
descarga_multisensor.py (same skipping rules, its own `parse_value`). -/
def keptPair_m (sensor_id descripcion : List Char) (obs : RawObs) :
    Option (List Char × PyNum) :=
  if tsFalsy obs.timestamp || payloadFalsy obs.value then none
  else
    match obs.timestamp with
    | none => none
    | some ts =>
      match parse_value_m sensor_id descripcion obs.value with
      | none => none
      | some v => some (parse_timestamp ts, v)

/-- The labels/values part of `build_sensor_json` from
descarga_multisensor.py ("Sentilo viene DESC -> invertimos a ASC"). -/
def build_sensor_json_series (sensor_id descripcion : List Char)
    (observations : List RawObs) : List (List Char) × List PyNum :=
  let kept := observations.filterMap (keptPair_m sensor_id descripcion)
  ((kept.map Prod.fst).reverse, (kept.map Prod.snd).reverse)

/-- The per-observation loop of descarga_header.py (lines 187-195), in
delivery order, before the final reversal.  `parse_value` is consulted
first (`o.get("value")` never raises), but a usable observation then reads
`o["timestamp"]` unconditionally: a missing timestamp key raises `KeyError`
(modelled as `Except.error`), aborting the whole run. -/
def header_loop (sensor_id descripcion : List Char) :
    List RawObs → Except Unit (List (List Char) × List PyNum)
  | [] => .ok ([], [])
  | o :: rest =>
    match parse_value_h sensor_id descripcion o.value with
    | none => header_loop sensor_id descripcion rest
    | some v =>
      match o.timestamp with
      | none => .error ()
      | some ts =>
        match header_loop sensor_id descripcion rest with
        | .error e => .error e
        | .ok (ls, vs) => .ok (parse_timestamp ts :: ls, v :: vs)

/-- The header per-sensor series: loop then `labels.reverse()` /
`values.reverse()`. -/
def header_series (sensor_id descripcion : List Char) (obs : List RawObs) :
    Except Unit (List (List Char) × List PyNum) :=
  match header_loop sensor_id descripcion obs with
  | .error e => .error e
  | .ok (ls, vs) => .ok (ls.reverse, vs.reverse)

/-- Whether descarga_header.py adds an index entry for a real sensor whose
fetch delivered `obs`: after a successful loop the entry is written
unconditionally (no emptiness guard, lines 197-215). -/
def header_index_includes (sensor_id descripcion : List Char)
    (obs : List RawObs) : Bool :=
  match header_series sensor_id descripcion obs with
  | .error _ => false
  | .ok _ => true

/-- Whether descarga_multisensor2.py adds an index entry for a real sensor
whose fetch delivered `obs`: skipped when there are no observations
(`if not observations`) or no usable values (`if not values`). -/
def m2_index_includes (sensor_id descripcion : List Char)
    (obs : List RawObs) : Bool :=
  if obs.isEmpty then false
  else !(observations_to_series sensor_id descripcion obs).2.isEmpty

/-- Whether descarga_multisensor.py adds an index entry for a real sensor
whose fetch delivered `obs` (same two guards as multisensor2). -/
def m_index_includes (sensor_id descripcion : List Char)
    (obs : List RawObs) : Bool :=
  if obs.isEmpty then false
  else !(build_sensor_json_series sensor_id descripcion obs).2.isEmpty

/-- Last-binding-wins lookup in a Python dict modelled as an assoc list in
insertion order. -/
def mapGet (m : List (List Char × PyNum)) (k : List Char) : Option PyNum :=
  (m.reverse.find? (fun p => p.1 == k)).map (fun p => p.2)

/-- `k in d` for such a dict. -/
def mapHasKey (m : List (List Char × PyNum)) (k : List Char) : Bool :=
  (mapGet m k).isSome

/-- The distinct keys of such a dict (first-occurrence order, as
`dict.keys()`). -/
def mapKeys (m : List (List Char × PyNum)) : List (List Char) :=
  (m.map Prod.fst).dedup

/-- `to_minute_map` from descarga_multisensor.py: dict from minute key to
value; several points in the same minute keep the last. -/
def to_minute_map (labels : List (List Char)) (values : List PyNum) :
    List (List Char × PyNum) :=
  (labels.zip values).map (fun p => (minute_key p.1, p.2))

/-- Lexicographic (code-point) order on strings, as Python string `<=`. -/
def lexLe : List Char → List Char → Bool
  | [], _ => true
  | _ :: _, [] => false
  | a :: as, b :: bs => if a = b then lexLe as bs else decide (a < b)

/-- Insertion into a lexicographically sorted list. -/
def insertLex (x : List Char) : List (List Char) → List (List Char)
  | [] => [x]
  | y :: ys => if lexLe x y then x :: y :: ys else y :: insertLex x ys

/-- `sorted(...)` on a list of distinct strings. -/
def sortLex : List (List Char) → List (List Char)
  | [] => []
  | x :: xs => insertLex x (sortLex xs)

/-- `calcular_energia_total_consumida` from descarga_multisensor.py:
`CONS = IMPORTADA + FV - EXPORTADA` on the sorted intersection of the three
minute-key dicts; each output label is the minute key with `":00"` appended
("reconstruimos label ISO"). -/
def calcular_energia_total_consumida
    (imp_labels : List (List Char)) (imp_values : List PyNum)
    (exp_labels : List (List Char)) (exp_values : List PyNum)
    (fv_labels : List (List Char)) (fv_values : List PyNum) :
    List (List Char) × List PyNum :=
  let imp := to_minute_map imp_labels imp_values
  let expm := to_minute_map exp_labels exp_values
  let fv := to_minute_map fv_labels fv_values
  let comunes := sortLex ((mapKeys imp).filter
    (fun k => mapHasKey expm k && mapHasKey fv k))
  (comunes.map (fun k => k ++ ":00".toList),
   comunes.map (fun k =>
     pySub (pyAdd ((mapGet imp k).getD (.finite (Frac.ofInt 0))) ((mapGet fv k).getD (.finite (Frac.ofInt 0))))
       ((mapGet expm k).getD (.finite (Frac.ofInt 0)))))

/-- The FV-by-minute dict of the calculated-sensor block of
descarga_multisensor2.py (lines 326-333). -/
def m2_fv_map (fv_labels : List (List Char)) (fv_values : List PyNum) :
    List (List Char × PyNum) :=
  (fv_labels.zip fv_values).map (fun p => (ts_to_minute_iso p.1, p.2))

/-- The calculated-sensor loop of descarga_multisensor2.py (lines 337-344):
one output point per imported point, keyed by the imported series' own
timestamp, adding the FV value at the same minute or `0.0` when absent. -/
def m2_calc (import_labels : List (List Char)) (import_values : List PyNum)
    (fv_map : List (List Char × PyNum)) : List (List Char) × List PyNum :=
  let pairs := import_labels.zip import_values
  (pairs.map Prod.fst,
   pairs.map (fun p =>
     pyAdd p.2 ((mapGet fv_map (ts_to_minute_iso p.1)).getD (.finite (Frac.ofInt 0)))))

/-- Ascending (non-strict, lexicographic/code-point) order of a label list:
"ascending timestamp order" of the spec, since the pipeline's ISO-8601
labels compare chronologically iff they compare lexicographically. -/
def sortedAscLex : List (List Char) → Bool
  | [] => true
  | [_] => true
  | a :: b :: t => lexLe a b && sortedAscLex (b :: t)

/-- Descending (non-increasing) order of a label list: "newest-first"
delivery order. -/
def sortedDescLex : List (List Char) → Bool
  | [] => true
  | [_] => true
  | a :: b :: t => lexLe b a && sortedDescLex (b :: t)

lemma sortedAscLex_iff_chain (l : List (List Char)) :
    sortedAscLex l = true ↔ List.Chain' (fun a b => lexLe a b = true) l := by
  induction l with
  | nil => simp [sortedAscLex]
  | cons a t ih =>
    cases t with
    | nil => simp [sortedAscLex]
    | cons b t' =>
      rw [List.chain'_cons, ← ih]
      simp [sortedAscLex]

lemma sortedDescLex_iff_chain (l : List (List Char)) :
    sortedDescLex l = true ↔ List.Chain' (fun a b => lexLe b a = true) l := by
  induction l with
  | nil => simp [sortedDescLex]
  | cons a t ih =>
    cases t with
    | nil => simp [sortedDescLex]
    | cons b t' =>
      rw [List.chain'_cons, ← ih]
      simp [sortedDescLex]

lemma sortedAscLex_reverse_of_desc (l : List (List Char))
    (h : sortedDescLex l = true) : sortedAscLex l.reverse = true := by
  rw [sortedAscLex_iff_chain, List.chain'_reverse]
  rw [sortedDescLex_iff_chain] at h
  exact h

/-- An observation carrying an "avg" summary with the given value. -/
def avgObs (ts : List Char) (p : PyNum) : RawObs :=
  ⟨some ts, some (.parsed (.jdict [("summary".toList, .jdict [("avg".toList, .jnum p)])]))⟩

/-- C1, counterexample.  The Series Builder does not sort: it only reverses.
Feeding `observations_to_series` two valid observations in oldest-first
order yields output labels in strictly DESCENDING order, refuting both the
unconditional ascending-order claim and its permutation-invariance: the
claim asserts ascending output for every delivery order. -/
theorem c1_counterexample :
    sortedAscLex (observations_to_series "0190_HV_T".toList "temp".toList
      [avgObs "01/01/2025T00:00:00".toList (.finite (Frac.ofInt 1)),
       avgObs "02/01/2025T00:00:00".toList (.finite (Frac.ofInt 2))]).1 = false
    ∧ (observations_to_series "0190_HV_T".toList "temp".toList
      [avgObs "01/01/2025T00:00:00".toList (.finite (Frac.ofInt 1)),
       avgObs "02/01/2025T00:00:00".toList (.finite (Frac.ofInt 2))]).1
      = ["2025-01-02T00:00:00".toList, "2025-01-01T00:00:00".toList] := by
  constructor
  · decide
  · decide

/-- C1 (amended): the three Series Builders reverse the delivered order
instead of sorting; therefore the output labels are ascending whenever the
kept observations were delivered newest-first (non-increasing timestamps),
which is the order the source delivers. -/
theorem c1_amended (sensor_id descripcion : List Char) (obs : List RawObs) :
    (sortedDescLex ((obs.filterMap (keptPair_m2 sensor_id descripcion)).map Prod.fst) = true →
      sortedAscLex (observations_to_series sensor_id descripcion obs).1 = true)
    ∧ (sortedDescLex ((obs.filterMap (keptPair_m sensor_id descripcion)).map Prod.fst) = true →
      sortedAscLex (build_sensor_json_series sensor_id descripcion obs).1 = true)
    ∧ (∀ ls vs, header_loop sensor_id descripcion obs = .ok (ls, vs) →
      sortedDescLex ls = true →
      header_series sensor_id descripcion obs = .ok (ls.reverse, vs.reverse)
      ∧ sortedAscLex ls.reverse = true) := by
  refine ⟨?_, ?_, ?_⟩
  · intro h
    exact sortedAscLex_reverse_of_desc _ h
  · intro h
    exact sortedAscLex_reverse_of_desc _ h
  · intro ls vs hok h
    constructor
    · unfold header_series
      rw [hok]
    · exact sortedAscLex_reverse_of_desc _ h

/-- C1 (amended), witness: newest-first delivery produces ascending output
in all three builders. -/
theorem c1_amended_witness :
    sortedAscLex (observations_to_series "0190_HV_T".toList "temp".toList
      [avgObs "02/01/2025T00:00:00".toList (.finite (Frac.ofInt 2)),
       avgObs "01/01/2025T00:00:00".toList (.finite (Frac.ofInt 1))]).1 = true
    ∧ sortedAscLex (build_sensor_json_series "0190_HV_T".toList "temp".toList
      [avgObs "02/01/2025T00:00:00".toList (.finite (Frac.ofInt 2)),
       avgObs "01/01/2025T00:00:00".toList (.finite (Frac.ofInt 1))]).1 = true
    ∧ header_series "0190_HV_T".toList "temp".toList
      [avgObs "02/01/2025T00:00:00".toList (.finite (Frac.ofInt 2)),
       avgObs "01/01/2025T00:00:00".toList (.finite (Frac.ofInt 1))]
      = .ok (["2025-01-01T00:00:00".toList, "2025-01-02T00:00:00".toList].reverse.reverse,
             [PyNum.finite (Frac.ofInt 1), PyNum.finite (Frac.ofInt 2)].reverse.reverse) := by
  refine ⟨?_, ?_, ?_⟩
  · exact (c1_amended "0190_HV_T".toList "temp".toList _).1 (by decide)
  · exact (c1_amended "0190_HV_T".toList "temp".toList _).2.1 (by decide)
  · exact ((c1_amended "0190_HV_T".toList "temp".toList _).2.2 _ _ (by rfl) (by decide)).1

lemma digitChar_mod10_isDigit (n : Nat) : (Nat.digitChar (n % 10)).isDigit = true := by
  have h : n % 10 < 10 := Nat.mod_lt _ (by decide)
  interval_cases hh : (n % 10) <;> decide

/-- Any input whose first three characters are digits has no parse under
`%d/%m/%YT%H:%M:%S`: the day field consumes one or two digits and the next
character must then be `/`, but it is a digit. -/
lemma strptimeParses_digits (c1 c2 c3 : Char) (rest : List Char)
    (h2 : c2.isDigit = true) (h3 : c3.isDigit = true) :
    strptimeParses (c1 :: c2 :: c3 :: rest) = [] := by
  have hc2 : (c2 = '/') = False := by
    simp only [eq_iff_iff, iff_false]
    intro h
    subst h
    exact absurd h2 (by decide)
  have hc3 : (c3 = '/') = False := by
    simp only [eq_iff_iff, iff_false]
    intro h
    subst h
    exact absurd h3 (by decide)
  unfold strptimeParses dayAlts
  dsimp only
  split_ifs <;>
    simp [expectChar, hc2, hc3, List.flatMap_append]

lemma strptimeDMY_isoformat (dt : PyDateTime) :
    strptimeDMY (isoformat dt) = none := by
  have hiso : isoformat dt =
      Nat.digitChar (dt.year / 1000 % 10) :: Nat.digitChar (dt.year / 100 % 10) ::
      Nat.digitChar (dt.year / 10 % 10) :: (Nat.digitChar (dt.year % 10) ::
        ('-' :: (pad2 dt.month ++ '-' :: (pad2 dt.day ++
          'T' :: (pad2 dt.hour ++ ':' :: (pad2 dt.minute ++ ':' :: pad2 dt.second)))))) := by
    simp [isoformat, pad4]
  rw [strptimeDMY, hiso,
    strptimeParses_digits _ _ _ _ (digitChar_mod10_isDigit _) (digitChar_mod10_isDigit _)]

/-- C10: `parse_timestamp` is idempotent: a successfully normalized
ISO-8601 output never re-parses under the source format
`%d/%m/%YT%H:%M:%S` (its third character is a digit where the format
demands `/`), and a pass-through string is returned unchanged again. -/
theorem c10_parse_timestamp_idempotent (ts : List Char) :
    parse_timestamp (parse_timestamp ts) = parse_timestamp ts := by
  cases h : strptimeDMY ts with
  | none => simp [parse_timestamp, h]
  | some dt => simp [parse_timestamp, h, strptimeDMY_isoformat]


lemma ws_pyUpperChar (c : Char) (h : isWS c = true) : pyUpperChar c = c := by
  simp only [isWS, Bool.or_eq_true, decide_eq_true_eq] at h
  rcases h with ((((h | h) | h) | h) | h) | h <;> subst h <;> decide

lemma mv_chars_not_ws (c : Char) (h : c ∈ "0190_MV_".toList) : isWS c = false := by
  fin_cases h <;> decide

/-- The identifier-prefix test commutes with Python's `strip()`: if the
upper-cased raw id starts with `0190_MV_`, so does the upper-cased stripped
id (the prefix contains no whitespace, so stripping cannot remove it). -/
lemma isPrefixOf_pyUpper_pyStrip (l : List Char)
    (h : ("0190_MV_".toList).isPrefixOf (pyUpper l) = true) :
    ("0190_MV_".toList).isPrefixOf (pyUpper (pyStrip l)) = true := by
  rw [List.isPrefixOf_iff_prefix] at h ⊢
  obtain ⟨t, ht⟩ := h
  obtain ⟨l₁, l₂, rfl, hml⟩ :
      ∃ l₁ l₂, l = l₁ ++ l₂ ∧ pyUpper l₁ = "0190_MV_".toList := by
    refine ⟨l.take 8, l.drop 8, (List.take_append_drop 8 l).symm, ?_⟩
    have h8 : ("0190_MV_".toList).length = 8 := by decide
    have htake : pyUpper (l.take 8) = (pyUpper l).take 8 := List.map_take pyUpperChar l 8
    rw [htake, ← ht, ← h8, List.take_left]
  have hnws : ∀ c ∈ l₁, isWS c = false := by
    intro c hc
    cases hws : isWS c with
    | false => rfl
    | true =>
      have hmem : pyUpperChar c ∈ "0190_MV_".toList := by
        rw [← hml]
        exact List.mem_map_of_mem pyUpperChar hc
      rw [ws_pyUpperChar c hws] at hmem
      have hf := mv_chars_not_ws c hmem
      rw [hf] at hws
      exact absurd hws (by decide)
  obtain ⟨c, cs, rfl⟩ : ∃ c cs, l₁ = c :: cs := by
    cases l₁ with
    | nil => exact absurd hml (by decide)
    | cons c cs => exact ⟨c, cs, rfl⟩
  have hdrop : List.dropWhile isWS (c :: cs ++ l₂) = c :: cs ++ l₂ := by
    have hcws : isWS c = false := hnws c (List.mem_cons_self c cs)
    simp [List.dropWhile_cons, hcws]
  have hlast : List.dropWhile isWS (c :: cs).reverse = (c :: cs).reverse := by
    cases hr : (c :: cs).reverse with
    | nil => simp at hr
    | cons d ds =>
      have hd : d ∈ c :: cs := by
        have hm : d ∈ (c :: cs).reverse := by rw [hr]; exact List.mem_cons_self d ds
        exact List.mem_reverse.mp hm
      simp [List.dropWhile_cons, hnws d hd]
  unfold pyStrip
  rw [hdrop, List.reverse_append, List.dropWhile_append]
  by_cases hemp : (List.dropWhile isWS l₂.reverse).isEmpty = true
  · rw [if_pos hemp, hlast, List.reverse_reverse, hml]
  · rw [if_neg hemp, List.reverse_append, List.reverse_reverse]
    refine ⟨pyUpper ((List.dropWhile isWS l₂.reverse).reverse), ?_⟩
    rw [← hml]
    simp [pyUpper]

/-- C9: every sensor id that upper-cases to a string starting with
`0190_MV_` is classified Energy by all three `es_energia` variants, for
every description whatsoever (the identifier-prefix rule fires before and
independently of any description rule). -/
theorem c9_id_rule_wins (sensor_id descripcion : List Char)
    (h : ("0190_MV_".toList).isPrefixOf (pyUpper sensor_id) = true) :
    es_energia_m sensor_id descripcion = true
    ∧ es_energia_m2 sensor_id descripcion = true
    ∧ es_energia_h sensor_id descripcion = true := by
  have h' := (List.isPrefixOf_iff_prefix).mp (isPrefixOf_pyUpper_pyStrip sensor_id h)
  refine ⟨?_, ?_, ?_⟩
  · simp only [es_energia_m]
    simp
    exact Or.inl h'
  · simp only [es_energia_m2]
    simp
    exact Or.inl h'
  · simp only [es_energia_h]
    simp
    exact Or.inl ((List.isPrefixOf_iff_prefix).mp h)

/-- C9, witness: a lower-case counter id with an empty description. -/
theorem c9_id_rule_wins_witness :
    es_energia_m "0190_mv_c1_asb_activee".toList "".toList = true
    ∧ es_energia_m2 "0190_mv_c1_asb_activee".toList "".toList = true
    ∧ es_energia_h "0190_mv_c1_asb_activee".toList "".toList = true :=
  c9_id_rule_wins "0190_mv_c1_asb_activee".toList "".toList (by decide)

/-- C3, counterexample: descarga_header.py's `es_energia` tests only the
token "energia", so a description containing the token "energy" (with a
sensor id matching no identifier rule) is classified Instantaneous there,
not Energy as the claim states. -/
theorem c3_counterexample :
    containsSub (normalizar_h "Energy meter".toList) "energy".toList = true
    ∧ es_energia_h "0524_HV_IRRAD".toList "Energy meter".toList = false := by
  constructor
  · decide
  · decide

/-- C3 (amended): a normalized description containing "energia" or "energy"
forces Energy in descarga_multisensor.py and descarga_multisensor2.py
(for every sensor id); in descarga_header.py only the token "energia"
does. -/
theorem c3_amended (sensor_id descripcion : List Char) :
    ((containsSub (normalizar descripcion) "energia".toList = true
        ∨ containsSub (normalizar descripcion) "energy".toList = true) →
      es_energia_m sensor_id descripcion = true
      ∧ es_energia_m2 sensor_id descripcion = true)
    ∧ (containsSub (normalizar_h descripcion) "energia".toList = true →
      es_energia_h sensor_id descripcion = true) := by
  constructor
  · intro h
    constructor
    · simp only [es_energia_m]
      simp
      exact Or.inr (Or.inr h)
    · simp only [es_energia_m2]
      simp
      exact Or.inr (Or.inl h)
  · intro h
    simp only [es_energia_h]
    simp
    exact Or.inr h

/-- C3 (amended), witness: an accented upper-case description. -/
theorem c3_amended_witness :
    (es_energia_m "0524_HV_IRRAD".toList "Energía activa".toList = true
      ∧ es_energia_m2 "0524_HV_IRRAD".toList "Energía activa".toList = true)
    ∧ es_energia_h "0524_HV_IRRAD".toList "Energía activa".toList = true :=
  ⟨(c3_amended "0524_HV_IRRAD".toList "Energía activa".toList).1 (Or.inl (by decide)),
   (c3_amended "0524_HV_IRRAD".toList "Energía activa".toList).2 (by decide)⟩

/-- C2: for every payload whose parsed form carries a summary object, under
an Energy classification each `parse_value` variant returns lastvalue −
firstvalue when both fields are present and numeric, and returns None when
either is absent or non-numeric — never falling back to an avg field, even
when one is present in the same summary. -/
theorem c2_energy_extract (sensor_id descripcion : List Char)
    (fields s : List (List Char × JVal))
    (hsum : dictGet fields "summary".toList = some (.jdict s)) :
    (es_energia_m sensor_id descripcion = true →
      ((∀ jf jl f l, dictGet s "firstvalue".toList = some jf →
          dictGet s "lastvalue".toList = some jl →
          pyFloat jf = some f → pyFloat jl = some l →
          parse_value_m sensor_id descripcion (some (.parsed (.jdict fields)))
            = some (pySub l f))
        ∧ ((dictGet s "firstvalue".toList = none ∨ dictGet s "lastvalue".toList = none
            ∨ (∃ j, dictGet s "firstvalue".toList = some j ∧ pyFloat j = none)
            ∨ (∃ j, dictGet s "lastvalue".toList = some j ∧ pyFloat j = none)) →
          parse_value_m sensor_id descripcion (some (.parsed (.jdict fields))) = none)))
    ∧ (es_energia_m2 sensor_id descripcion = true →
      ((∀ jf jl f l, dictGet s "firstvalue".toList = some jf →
          dictGet s "lastvalue".toList = some jl →
          pyFloat jf = some f → pyFloat jl = some l →
          parse_value_m2 sensor_id descripcion (some (.parsed (.jdict fields)))
            = some (pySub l f))
        ∧ ((dictGet s "firstvalue".toList = none ∨ dictGet s "lastvalue".toList = none
            ∨ (∃ j, dictGet s "firstvalue".toList = some j ∧ pyFloat j = none)
            ∨ (∃ j, dictGet s "lastvalue".toList = some j ∧ pyFloat j = none)) →
          parse_value_m2 sensor_id descripcion (some (.parsed (.jdict fields))) = none)))
    ∧ (es_energia_h sensor_id descripcion = true →
      ((∀ jf jl f l, dictGet s "firstvalue".toList = some jf →
          dictGet s "lastvalue".toList = some jl →
          pyFloat jf = some f → pyFloat jl = some l →
          parse_value_h sensor_id descripcion (some (.parsed (.jdict fields)))
            = some (pySub l f))
        ∧ ((dictGet s "firstvalue".toList = none ∨ dictGet s "lastvalue".toList = none
            ∨ (∃ j, dictGet s "firstvalue".toList = some j ∧ pyFloat j = none)
            ∨ (∃ j, dictGet s "lastvalue".toList = some j ∧ pyFloat j = none)) →
          parse_value_h sensor_id descripcion (some (.parsed (.jdict fields))) = none))) := by
  refine ⟨?_, ?_, ?_⟩ <;> intro hE <;> constructor
  case refine_1.left =>
    intro jf jl f l hjf hjl hf hl
    unfold parse_value_m
    try dsimp only
    rw [hsum]
    simp only [Option.getD_some]
    try dsimp only
    rw [if_pos hE, hjf, hjl]
    try dsimp only
    rw [hl, hf]
  case refine_1.right =>
    intro hbad
    unfold parse_value_m
    try dsimp only
    rw [hsum]
    simp only [Option.getD_some]
    try dsimp only
    rw [if_pos hE]
    rcases hbad with hno | hno | ⟨j, hj, hjn⟩ | ⟨j, hj, hjn⟩
    · rw [hno]
    · rw [hno]
      cases hdf : dictGet s "firstvalue".toList <;> simp
    · rw [hj]
      cases hdl : dictGet s "lastvalue".toList with
      | none => simp
      | some jl => cases hpl : pyFloat jl <;> simp [hpl, hjn]
    · rw [hj]
      cases hdf : dictGet s "firstvalue".toList with
      | none => simp
      | some jf => cases hpf : pyFloat jf <;> simp [hpf, hjn]
  case refine_2.left =>
    intro jf jl f l hjf hjl hf hl
    unfold parse_value_m2
    try dsimp only
    rw [hsum]
    simp only [Option.getD_some]
    try dsimp only
    rw [if_pos hE, hjf, hjl]
    try dsimp only
    rw [hl, hf]
  case refine_2.right =>
    intro hbad
    unfold parse_value_m2
    try dsimp only
    rw [hsum]
    simp only [Option.getD_some]
    try dsimp only
    rw [if_pos hE]
    rcases hbad with hno | hno | ⟨j, hj, hjn⟩ | ⟨j, hj, hjn⟩
    · rw [hno]
    · rw [hno]
      cases hdf : dictGet s "firstvalue".toList <;> simp
    · rw [hj]
      cases hdl : dictGet s "lastvalue".toList with
      | none => simp
      | some jl => cases hpl : pyFloat jl <;> simp [hpl, hjn]
    · rw [hj]
      cases hdf : dictGet s "firstvalue".toList with
      | none => simp
      | some jf => cases hpf : pyFloat jf <;> simp [hpf, hjn]
  case refine_3.left =>
    intro jf jl f l hjf hjl hf hl
    unfold parse_value_h
    try dsimp only
    rw [hsum]
    simp only [Option.getD_some]
    try dsimp only
    rw [if_pos hE, hjf, hjl]
    try dsimp only
    rw [hl, hf]
  case refine_3.right =>
    intro hbad
    unfold parse_value_h
    try dsimp only
    rw [hsum]
    simp only [Option.getD_some]
    try dsimp only
    rw [if_pos hE]
    rcases hbad with hno | hno | ⟨j, hj, hjn⟩ | ⟨j, hj, hjn⟩
    · rw [hno]
    · rw [hno]
      cases hdf : dictGet s "firstvalue".toList <;> simp
    · rw [hj]
      cases hdl : dictGet s "lastvalue".toList with
      | none => simp
      | some jl => cases hpl : pyFloat jl <;> simp [hpl, hjn]
    · rw [hj]
      cases hdf : dictGet s "firstvalue".toList with
      | none => simp
      | some jf => cases hpf : pyFloat jf <;> simp [hpf, hjn]

/-- An energy summary carrying firstvalue 10, lastvalue 25 and avg 5. -/
def sfBoth : List (List Char × JVal) :=
  [("firstvalue".toList, .jnum (.finite (Frac.ofInt 10))),
   ("lastvalue".toList, .jnum (.finite (Frac.ofInt 25))),
   ("avg".toList, .jnum (.finite (Frac.ofInt 5)))]

/-- A summary with an avg and a lastvalue but no firstvalue. -/
def sfNoFirst : List (List Char × JVal) :=
  [("lastvalue".toList, .jnum (.finite (Frac.ofInt 25))),
   ("avg".toList, .jnum (.finite (Frac.ofInt 5)))]

/-- C2, witness: on a counter sensor, both fields present yield 25 − 10 = 15
even though an avg of 5 is present; with firstvalue missing the result is
None despite the avg. -/
theorem c2_energy_extract_witness :
    parse_value_m2 "0190_mv_e".toList "".toList
      (some (.parsed (.jdict [("summary".toList, .jdict sfBoth)])))
      = some (.finite ⟨15, 1⟩)
    ∧ parse_value_m2 "0190_mv_e".toList "".toList
      (some (.parsed (.jdict [("summary".toList, .jdict sfNoFirst)])))
      = none := by
  constructor
  · have h := ((c2_energy_extract "0190_mv_e".toList "".toList
        [("summary".toList, .jdict sfBoth)] sfBoth rfl).2.1 (by decide)).1
      (.jnum (.finite (Frac.ofInt 10))) (.jnum (.finite (Frac.ofInt 25)))
      (.finite (Frac.ofInt 10)) (.finite (Frac.ofInt 25)) rfl rfl rfl rfl
    exact h.trans (by decide)
  · exact ((c2_energy_extract "0190_mv_e".toList "".toList
      [("summary".toList, .jdict sfNoFirst)] sfNoFirst rfl).2.1 (by decide)).2
      (Or.inl rfl)

/-- C7, counterexample: the extractors perform no finiteness check: a
summary whose avg field is the float Infinity (Python json accepts the
literal `Infinity` and overflowing literals like `1e999`) makes every
`parse_value` variant return positive infinity instead of "no value". -/
theorem c7_counterexample :
    parse_value_m "0524_HV_IRRAD".toList "Irradiancia".toList
      (some (.parsed (.jdict [("summary".toList, .jdict [("avg".toList, .jnum .pinf)])])))
      = some .pinf
    ∧ parse_value_m2 "0524_HV_IRRAD".toList "Irradiancia".toList
      (some (.parsed (.jdict [("summary".toList, .jdict [("avg".toList, .jnum .pinf)])])))
      = some .pinf
    ∧ parse_value_h "0524_HV_IRRAD".toList "Irradiancia".toList
      (some (.parsed (.jdict [("summary".toList, .jdict [("avg".toList, .jnum .pinf)])])))
      = some .pinf
    ∧ PyNum.isFinite .pinf = false := by
  refine ⟨by decide, by decide, by decide, by decide⟩

/-- C7 (amended): the extractors apply no finiteness filter: a summary
field that converts to a non-finite float is returned as-is on the
instantaneous (avg) path, and on the Energy path subtraction of two finite
doubles of maximal magnitude (±DBL_MAX, both accepted by json) overflows
to +infinity — "no value" is never substituted for a non-finite result. -/
theorem c7_amended (sensor_id descripcion : List Char)
    (fields s : List (List Char × JVal)) (v : PyNum)
    (hsum : dictGet fields "summary".toList = some (.jdict s))
    (_hv : v.isFinite = false)
    (havg : dictGet s "avg".toList = some (.jnum v)) :
    (es_energia_m sensor_id descripcion = false →
      parse_value_m sensor_id descripcion (some (.parsed (.jdict fields))) = some v)
    ∧ (es_energia_m2 sensor_id descripcion = false →
      parse_value_m2 sensor_id descripcion (some (.parsed (.jdict fields))) = some v)
    ∧ (es_energia_h sensor_id descripcion = false →
      parse_value_h sensor_id descripcion (some (.parsed (.jdict fields))) = some v)
    ∧ parse_value_m2 "0190_mv_e".toList "".toList
        (some (.parsed (.jdict [("summary".toList, .jdict
          [("firstvalue".toList, .jnum (.finite dblMax.neg)),
           ("lastvalue".toList, .jnum (.finite dblMax))])])))
      = some .pinf := by
  refine ⟨?_, ?_, ?_, by decide⟩
  case refine_1 =>
    intro hE
    unfold parse_value_m
    dsimp only
    rw [hsum]
    simp only [Option.getD_some]
    try dsimp only
    rw [if_neg (by simp [hE]), havg]
    rfl
  case refine_2 =>
    intro hE
    unfold parse_value_m2
    dsimp only
    rw [hsum]
    simp only [Option.getD_some]
    try dsimp only
    rw [if_neg (by simp [hE]), havg]
    rfl
  case refine_3 =>
    intro hE
    unfold parse_value_h
    dsimp only
    rw [hsum]
    simp only [Option.getD_some]
    try dsimp only
    rw [if_neg (by simp [hE]), havg]
    rfl

/-- C7 (amended), witness: an Infinity avg field passes through unfiltered. -/
theorem c7_amended_witness :
    parse_value_m2 "0524_HV_IRRAD".toList "Irradiancia".toList
      (some (.parsed (.jdict [("summary".toList,
        .jdict [("avg".toList, .jnum .pinf)])])))
      = some .pinf :=
  (c7_amended "0524_HV_IRRAD".toList "Irradiancia".toList
      [("summary".toList, .jdict [("avg".toList, .jnum .pinf)])]
      [("avg".toList, .jnum .pinf)] .pinf
      rfl (by decide) rfl).2.1 (by decide)

/-- C4, counterexample: descarga_multisensor.py's derivation keys its output
Sample by the minute-truncated alignment key with ":00" appended
(07:45:00), not by the mandatory imported series' own original timestamp
(07:45:01), so original timestamp precision is NOT preserved there. -/
theorem c4_counterexample :
    calcular_energia_total_consumida
      ["2025-08-13T07:45:01".toList] [.finite (Frac.ofInt 10)]
      ["2025-08-13T07:45:30".toList] [.finite (Frac.ofInt 2)]
      ["2025-08-13T07:45:59".toList] [.finite (Frac.ofInt 5)]
    = (["2025-08-13T07:45:00".toList], [.finite ⟨13, 1⟩])
    ∧ "2025-08-13T07:45:00".toList ≠ "2025-08-13T07:45:01".toList := by
  constructor
  · decide
  · decide

/-- C4 (amended): descarga_multisensor2.py's derivation does key each output
Sample by the imported (mandatory) series' own original timestamp, while
descarga_multisensor.py keys every output by a minute key with ":00"
appended. -/
theorem c4_amended (import_labels : List (List Char)) (import_values : List PyNum)
    (fv_map : List (List Char × PyNum))
    (imp_labels : List (List Char)) (imp_values : List PyNum)
    (exp_labels : List (List Char)) (exp_values : List PyNum)
    (fv_labels : List (List Char)) (fv_values : List PyNum)
    (hlen : import_labels.length = import_values.length) :
    (m2_calc import_labels import_values fv_map).1 = import_labels
    ∧ (∀ lab ∈ (calcular_energia_total_consumida imp_labels imp_values
        exp_labels exp_values fv_labels fv_values).1,
        ∃ k, lab = k ++ ":00".toList) := by
  constructor
  · unfold m2_calc
    dsimp only
    exact List.map_fst_zip import_labels import_values hlen.le
  · intro lab hmem
    unfold calcular_energia_total_consumida at hmem
    dsimp only at hmem
    obtain ⟨k, _, hk⟩ := List.mem_map.mp hmem
    exact ⟨k, hk.symm⟩

/-- C4 (amended), witness. -/
theorem c4_amended_witness :
    (m2_calc ["2025-08-13T07:45:01".toList] [.finite (Frac.ofInt 10)] []).1
      = ["2025-08-13T07:45:01".toList]
    ∧ ∃ k, "2025-08-13T07:45:00".toList = k ++ ":00".toList := by
  constructor
  · exact (c4_amended ["2025-08-13T07:45:01".toList] [.finite (Frac.ofInt 10)] []
      [] [] [] [] [] [] rfl).1
  · exact (c4_amended [] [] [] ["2025-08-13T07:45:01".toList] [.finite (Frac.ofInt 10)]
      ["2025-08-13T07:45:30".toList] [.finite (Frac.ofInt 2)]
      ["2025-08-13T07:45:59".toList] [.finite (Frac.ofInt 5)] rfl).2
      "2025-08-13T07:45:00".toList (by decide)

/-- C5: in descarga_multisensor2.py's derivation, every imported point
yields an output point, and the optional FV series contributes exactly
zero at any position whose minute key it lacks (in particular when the FV
series is missing entirely, i.e. `fv_map = []`); the spec's concrete A+B
case evaluates to 13 at t1 and 12 at t2. -/
theorem c5_optional_zero (import_labels : List (List Char))
    (import_values : List PyNum) (fv_map : List (List Char × PyNum)) :
    (∀ i : Nat, ((m2_calc import_labels import_values fv_map).2)[i]?
      = ((import_labels.zip import_values)[i]?).map
          (fun p => pyAdd p.2
            ((mapGet fv_map (ts_to_minute_iso p.1)).getD (.finite (Frac.ofInt 0)))))
    ∧ (∀ (i : Nat) (ts : List Char) (v : PyNum),
        (import_labels.zip import_values)[i]? = some (ts, v) →
        mapGet fv_map (ts_to_minute_iso ts) = none →
        ((m2_calc import_labels import_values fv_map).2)[i]?
          = some (pyAdd v (.finite (Frac.ofInt 0))))
    ∧ m2_calc ["2025-08-13T07:45:01".toList, "2025-08-13T07:50:01".toList]
        [.finite (Frac.ofInt 10), .finite (Frac.ofInt 12)]
        (m2_fv_map ["2025-08-13T07:45:30".toList] [.finite (Frac.ofInt 3)])
      = (["2025-08-13T07:45:01".toList, "2025-08-13T07:50:01".toList],
         [.finite ⟨13, 1⟩, .finite ⟨12, 1⟩]) := by
  have hmain : ∀ i : Nat, ((m2_calc import_labels import_values fv_map).2)[i]?
      = ((import_labels.zip import_values)[i]?).map
          (fun p => pyAdd p.2
            ((mapGet fv_map (ts_to_minute_iso p.1)).getD (.finite (Frac.ofInt 0)))) := by
    intro i
    unfold m2_calc
    dsimp only
    rw [List.getElem?_map]
  refine ⟨hmain, ?_, by decide⟩
  intro i ts v hz hnone
  rw [hmain i, hz]
  simp [hnone]

/-- C5, witness: position 1 of the concrete A+B case has no FV sample at its
minute and receives 12 + 0. -/
theorem c5_optional_zero_witness :
    ((m2_calc ["2025-08-13T07:45:01".toList, "2025-08-13T07:50:01".toList]
        [.finite (Frac.ofInt 10), .finite (Frac.ofInt 12)]
        (m2_fv_map ["2025-08-13T07:45:30".toList] [.finite (Frac.ofInt 3)])).2)[1]?
      = some (pyAdd (.finite (Frac.ofInt 12)) (.finite (Frac.ofInt 0))) :=
  (c5_optional_zero ["2025-08-13T07:45:01".toList, "2025-08-13T07:50:01".toList]
      [.finite (Frac.ofInt 10), .finite (Frac.ofInt 12)]
      (m2_fv_map ["2025-08-13T07:45:30".toList] [.finite (Frac.ofInt 3)])).2.1
    1 "2025-08-13T07:50:01".toList (.finite (Frac.ofInt 12)) (by decide) (by decide)

/-- An observation with a well-formed timestamp and an unparseable payload. -/
def badObsH : RawObs := ⟨some "13/08/2025T07:45:01".toList, some .malformed⟩

/-- C6, counterexample: in descarga_header.py a successfully fetched sensor
whose observations all fail extraction produces a zero-sample series AND
still gets an index entry, so the published catalogue is not restricted to
series with at least one Sample. -/
theorem c6_counterexample :
    header_series "0190_HV_S1_STPRO_TEMP".toList "Temperatura".toList [badObsH]
      = .ok ([], [])
    ∧ header_index_includes "0190_HV_S1_STPRO_TEMP".toList "Temperatura".toList [badObsH]
      = true := by
  constructor
  · rfl
  · rfl

/-- The calculated-sensor index path of descarga_multisensor.py (lines
313-336): the derivation runs, and when it produced no points the sensor is
skipped ("No se han podido calcular puntos"), otherwise `guardar_sensor`
writes the index entry with the derived series. -/
def m_calc_entry (il : List (List Char)) (iv : List PyNum)
    (el : List (List Char)) (ev : List PyNum)
    (fl : List (List Char)) (fv : List PyNum) :
    Option (List (List Char) × List PyNum) :=
  let r := calcular_energia_total_consumida il iv el ev fl fv
  if r.2.isEmpty then none else some r

/-- The calculated-sensor index path of descarga_multisensor2.py (lines
314-360): skipped when the mandatory imported series is not in the cache;
otherwise the index entry is written unconditionally with the computed
series (no emptiness guard). -/
def m2_calc_entry (cache_import : Option (List (List Char) × List PyNum))
    (fv_map : List (List Char × PyNum)) :
    Option (List (List Char) × List PyNum) :=
  match cache_import with
  | none => none
  | some lv => some (m2_calc lv.1 lv.2 fv_map)

/-- C6 (amended): for real sensors in both multisensor scripts, and for
descarga_multisensor.py's calculated sensor, an index entry exists iff the
built/derived series has at least one sample.  descarga_multisensor2.py
indexes its calculated sensor unconditionally once the mandatory imported
series is cached, but the derived series has one point per imported point,
so it is non-empty whenever the cached base series is (and only non-empty
series enter the cache, by the first conjunct).  descarga_header.py
violates the invariant: every sensor whose loop completes is indexed, even
with zero samples. -/
theorem c6_amended (sensor_id descripcion : List Char) (obs : List RawObs)
    (il : List (List Char)) (iv : List PyNum)
    (el : List (List Char)) (ev : List PyNum)
    (fl : List (List Char)) (fv : List PyNum)
    (import_labels : List (List Char)) (import_values : List PyNum)
    (fv_map : List (List Char × PyNum)) :
    (m2_index_includes sensor_id descripcion obs = true
      ↔ ¬ (observations_to_series sensor_id descripcion obs).2 = [])
    ∧ (m_index_includes sensor_id descripcion obs = true
      ↔ ¬ (build_sensor_json_series sensor_id descripcion obs).2 = [])
    ∧ ((m_calc_entry il iv el ev fl fv).isSome = true
      ↔ ¬ (calcular_energia_total_consumida il iv el ev fl fv).2 = [])
    ∧ (∀ p, m_calc_entry il iv el ev fl fv = some p → ¬ p.2 = [])
    ∧ m2_calc_entry none fv_map = none
    ∧ m2_calc_entry (some (import_labels, import_values)) fv_map
        = some (m2_calc import_labels import_values fv_map)
    ∧ (¬ import_labels = [] → ¬ import_values = [] →
        ¬ (m2_calc import_labels import_values fv_map).2 = [])
    ∧ (∀ p, header_series sensor_id descripcion obs = .ok p →
        header_index_includes sensor_id descripcion obs = true) := by
  refine ⟨?_, ?_, ?_, ?_, rfl, rfl, ?_, ?_⟩
  · unfold m2_index_includes
    cases obs with
    | nil => simp [observations_to_series]
    | cons o rest => simp [List.isEmpty_iff]
  · unfold m_index_includes
    cases obs with
    | nil => simp [build_sensor_json_series]
    | cons o rest => simp [List.isEmpty_iff]
  · unfold m_calc_entry
    dsimp only
    split <;> simp_all [List.isEmpty_iff]
  · intro p hp
    unfold m_calc_entry at hp
    dsimp only at hp
    split at hp
    · exact Option.noConfusion hp
    · rename_i hne
      rw [← Option.some.inj hp]
      simpa [List.isEmpty_iff] using hne
  · intro hL hV
    unfold m2_calc
    dsimp only
    cases import_labels with
    | nil => exact absurd rfl hL
    | cons a as =>
      cases import_values with
      | nil => exact absurd rfl hV
      | cons b bs => simp
  · intro p h
    unfold header_index_includes
    rw [h]

/-- C6 (amended), witness: the header indexes an empty fetched series, and
multisensor2's derived series is non-empty for a non-empty base. -/
theorem c6_amended_witness :
    header_index_includes "0524_HV_IRRAD".toList "Irradiancia".toList
      [avgObs "13/08/2025T07:45:01".toList (.finite (Frac.ofInt 1))] = true
    ∧ ¬ (m2_calc ["2025-08-13T07:45:01".toList] [.finite (Frac.ofInt 1)] []).2 = [] := by
  constructor
  · exact (c6_amended "0524_HV_IRRAD".toList "Irradiancia".toList
      [avgObs "13/08/2025T07:45:01".toList (.finite (Frac.ofInt 1))]
      [] [] [] [] [] [] [] [] []).2.2.2.2.2.2.2
      (["2025-08-13T07:45:01".toList], [.finite (Frac.ofInt 1)]) rfl
  · exact (c6_amended "x".toList "t".toList []
      [] [] [] [] [] []
      ["2025-08-13T07:45:01".toList] [.finite (Frac.ofInt 1)] []).2.2.2.2.2.2.1
      (by decide) (by decide)

/-- C8, counterexample: descarga_header.py's loop reads `o["timestamp"]`
unconditionally for a usable observation, so an observation whose
timestamp field is entirely missing but whose payload extracts a value
raises KeyError (modelled as an error), aborting the run instead of being
silently discarded. -/
theorem c8_counterexample :
    header_loop "0524_HV_IRRAD".toList "Irradiancia".toList
      [⟨none, some (.parsed (.jdict [("summary".toList,
        .jdict [("avg".toList, .jnum (.finite (Frac.ofInt 1)))])]))⟩]
      = .error () := by rfl

/-- C8 (amended): the two multisensor builders never raise: an observation
with an absent or empty timestamp or payload is silently discarded and the
rest still processed; descarga_header.py's loop also discards a
missing-timestamp observation when its value is unusable, but raises
(KeyError) when its value is usable. -/
theorem c8_amended (sensor_id descripcion : List Char) (o : RawObs) (rest : List RawObs) :
    ((tsFalsy o.timestamp = true ∨ payloadFalsy o.value = true) →
      observations_to_series sensor_id descripcion (o :: rest)
        = observations_to_series sensor_id descripcion rest
      ∧ build_sensor_json_series sensor_id descripcion (o :: rest)
        = build_sensor_json_series sensor_id descripcion rest)
    ∧ (o.timestamp = none → parse_value_h sensor_id descripcion o.value = none →
      header_loop sensor_id descripcion (o :: rest)
        = header_loop sensor_id descripcion rest)
    ∧ (o.timestamp = none → parse_value_h sensor_id descripcion o.value ≠ none →
      header_loop sensor_id descripcion (o :: rest) = .error ()) := by
  refine ⟨?_, ?_, ?_⟩
  · intro h
    have hk2 : keptPair_m2 sensor_id descripcion o = none := by
      unfold keptPair_m2
      rcases h with h | h <;> simp [h]
    have hk1 : keptPair_m sensor_id descripcion o = none := by
      unfold keptPair_m
      rcases h with h | h <;> simp [h]
    constructor
    · unfold observations_to_series
      rw [List.filterMap_cons_none hk2]
    · unfold build_sensor_json_series
      rw [List.filterMap_cons_none hk1]
  · intro hts hpv
    conv_lhs => unfold header_loop
    rw [hpv]
  · intro hts hpv
    cases hv : parse_value_h sensor_id descripcion o.value with
    | none => exact absurd hv hpv
    | some v =>
      unfold header_loop
      rw [hv, hts]

/-- C8 (amended), witness. -/
theorem c8_amended_witness :
    observations_to_series "x".toList "t".toList [⟨some [], some .malformed⟩]
      = observations_to_series "x".toList "t".toList []
    ∧ header_loop "x".toList "t".toList [⟨none, some .malformed⟩]
      = header_loop "x".toList "t".toList []
    ∧ header_loop "0524_HV_IRRAD".toList "Irradiancia".toList
        [⟨none, some (.parsed (.jdict [("summary".toList,
          .jdict [("avg".toList, .jnum (.finite (Frac.ofInt 2)))])]))⟩]
      = .error () := by
  refine ⟨?_, ?_, ?_⟩
  · exact ((c8_amended "x".toList "t".toList ⟨some [], some .malformed⟩ []).1
      (Or.inl (by decide))).1
  · exact (c8_amended "x".toList "t".toList ⟨none, some .malformed⟩ []).2.1 rfl (by decide)
  · exact (c8_amended "0524_HV_IRRAD".toList "Irradiancia".toList
      ⟨none, some (.parsed (.jdict [("summary".toList,
        .jdict [("avg".toList, .jnum (.finite (Frac.ofInt 2)))])]))⟩ []).2.2 rfl (by decide)
